import Mathlib

/-
Verification of the expression evaluator in src/main.rs of
DatSpygineer/ShuntingYardCalculator.

The whole pipeline lives in one Rust function, `eval`, plus the operator
table `Operator::MAP` and lookup `Operator::by_char`.  The embedding below
splits `eval` into its phases (character scan with inline shunting-yard
conversion, end-of-scan flush and drain, RPN reduction) but keeps every
branch, comparison and stack discipline of the source.

Numeric carrier: the Rust code computes in f64.  This embedding uses ℚ.
Every theorem below either concerns control flow and error values (where
the numeric type is never inspected) or exact small-integer arithmetic
(where f64 and ℚ agree).  f64 division by zero is never exercised by any
theorem here, because, as proved below, the character / is never even
recognized as an operator by the code.
-/

namespace SYC

/-- Value of a list of ASCII digit characters read as a base-10 numeral
(used to model the numeric value produced by Rust `str::parse::<f64>`). -/
def digitsToNat (ds : List Char) : Nat :=
  ds.foldl (fun a c => 10 * a + (c.toNat - 48)) 0

/-- Models Rust `temp.parse::<f64>()` (main.rs lines 87 and 145) on the only
strings the scanner can put in `temp`: nonempty strings of ASCII digits with
at most one dot.  On that domain Rust parsing succeeds iff the string
contains at least one digit (the sole failing buffer shape is "."), and the
value is the integer part plus the fractional part.  Signs, exponents and
repeated dots never reach the parser, since `temp` receives only characters
accepted by `is_digit(10)` and at most one dot. -/
def parseNum (s : List Char) : Option ℚ :=
  if s.any (fun c => c.isDigit) then
    let ip := s.takeWhile (fun c => c ≠ '.')
    let fp := (s.dropWhile (fun c => c ≠ '.')).drop 1
    some ((digitsToNat ip : ℚ) + (digitsToNat fp : ℚ) / 10 ^ fp.length)
  else
    none

/-- main.rs lines 18-24: `struct Operator`. -/
structure Operator where
  symbol : Char
  argc : Nat
  precedence : Nat
  resolver : List ℚ → ℚ

/-- Junk element used only as the `getD` fallback when modelling unchecked
slice indexing; every index actually produced below is in range. -/
instance : Inhabited Operator :=
  ⟨{ symbol := ' ', argc := 0, precedence := 0, resolver := fun _ => 0 }⟩

/-- main.rs lines 26-39: `Operator::MAP`, in the exact source order
/ * + -.  Each resolver is `args.get(1).unwrap() OP args.get(0).unwrap()`;
the unchecked `unwrap` is modelled by `getD` with a default that is never
used, because the evaluator always passes exactly `argc` operands. -/
def Operator.MAP : List (Char × Operator) := [
  ('/', { symbol := '/', argc := 2, precedence := 4,
          resolver := fun args => args.getD 1 0 / args.getD 0 0 }),
  ('*', { symbol := '*', argc := 2, precedence := 3,
          resolver := fun args => args.getD 1 0 * args.getD 0 0 }),
  ('+', { symbol := '+', argc := 2, precedence := 2,
          resolver := fun args => args.getD 1 0 + args.getD 0 0 }),
  ('-', { symbol := '-', argc := 2, precedence := 1,
          resolver := fun args => args.getD 1 0 - args.getD 0 0 })]

/-- The loop of Rust `slice::binary_search_by` (called at main.rs line 43):
while size > 1, probe mid = base + size/2; keep base if the probed element
compares greater than the target, else move base to mid; shrink size by
half.  The extra fuel argument only makes the recursion structural; fuel
equal to the initial size is enough, since size strictly decreases on every
iteration in which the loop runs. -/
def binSearchLoop (f : Nat → Ordering) : Nat → Nat → Nat → Nat
  | 0, _, base => base
  | fuel + 1, size, base =>
    if 1 < size then
      let half := size / 2
      let mid := base + half
      binSearchLoop f fuel (size - half) (if f mid = Ordering.gt then base else mid)
    else base

/-- Rust `slice::binary_search_by` on a slice of length n with comparator
f i = compare slice[i] target, projected to the Option used by `by_char`
(Ok index ↦ some index, Err insertion point ↦ none). -/
def binary_search_by (n : Nat) (f : Nat → Ordering) : Option Nat :=
  if n = 0 then none
  else
    let base := binSearchLoop f n n 0
    if f base = Ordering.eq then some base else none

/-- main.rs lines 41-47: `Operator::by_char`, a binary search over MAP
comparing the key character of each entry with c, returning the Operator of
the found entry. -/
def Operator.by_char (c : Char) : Option Operator :=
  (binary_search_by Operator.MAP.length
      (fun i => compare (Operator.MAP.getD i default).1 c)).map
    (fun i => (Operator.MAP.getD i default).2)

/-- main.rs lines 48-50: `Operator::resolve` applies the stored resolver. -/
def Operator.resolve (op : Operator) (args : List ℚ) : ℚ :=
  op.resolver args

/-- main.rs lines 53-58: `enum Token`. -/
inductive Token where
  | NumericLiteral (v : ℚ)
  | Operator (op : Operator)
  | OpenParen

/-- main.rs lines 60-69: `enum EvalError`. -/
inductive EvalError where
  | InvalidCharacter
  | UnexpectedToken (t : Token)
  | DuplicateDecimal
  | NumberParseError
  | MismatchedParenthesis
  | NotEnoughArguments
  | NoResult

/-- The mutable locals of `eval` during the scan (main.rs lines 72-75):
the holding stack and output queue are VecDeques; `holding` is used at its
front only (push_front, front, pop_front), modelled by a list with its head
as the front; `output` is used back-only (push_back), modelled by a list
appended on the right; `temp` is the pending-digits String. -/
structure ScanState where
  holding : List Token
  output : List Token
  temp : List Char
  last_token : Option Token

/-- main.rs lines 86-94 (and 144-151): flush a nonempty pending buffer as a
numeric literal pushed to the output queue, recording it as the last token,
or fail with NumberParseError. -/
def flushTemp (st : ScanState) : Except EvalError ScanState :=
  if st.temp.isEmpty then .ok st
  else
    match parseNum st.temp with
    | none => .error .NumberParseError
    | some v =>
      .ok { st with output := st.output ++ [Token.NumericLiteral v],
                    last_token := some (Token.NumericLiteral v),
                    temp := [] }

/-- main.rs lines 99-111: on a close paren, pop holding-stack tokens into
the output queue until an OpenParen is at the front; error with
MismatchedParenthesis if the stack empties first; on success the OpenParen
is popped and discarded, returning the remaining stack and the extended
output queue. -/
def popToParen : List Token → List Token → Except EvalError (List Token × List Token)
  | [], _ => .error .MismatchedParenthesis
  | Token.OpenParen :: rest, out => .ok (rest, out)
  | t :: rest, out => popToParen rest (out ++ [t])

/-- main.rs lines 123-134: pop operators whose precedence is ≥ the incoming
precedence p from the holding stack into the output queue, stopping at an
OpenParen or a lower-precedence operator.  A NumericLiteral at the front
would make the Rust loop spin forever (neither branch fires); it is treated
as a stop here, and no literal is ever pushed onto the holding stack. -/
def popOpsGE (p : Nat) : List Token → List Token → List Token × List Token
  | [], out => ([], out)
  | Token.OpenParen :: rest, out => (Token.OpenParen :: rest, out)
  | Token.Operator op_prev :: rest, out =>
    if op_prev.precedence ≥ p then popOpsGE p rest (out ++ [Token.Operator op_prev])
    else (Token.Operator op_prev :: rest, out)
  | Token.NumericLiteral v :: rest, out => (Token.NumericLiteral v :: rest, out)

/-- main.rs lines 114-121: if the looked-up operator is + or - and the last
observed token is an operator or absent, override arity to 1 and precedence
to 255 on the local copy. -/
def unaryOverride (op : Operator) (last : Option Token) : Operator :=
  if op.symbol = '+' ∨ op.symbol = '-' then
    match last with
    | some (Token.Operator _) | none => { op with argc := 1, precedence := 255 }
    | _ => op
  else op

/-- main.rs lines 77-142: the body of the per-character scan loop. -/
def scanStep (st : ScanState) (c : Char) : Except EvalError ScanState :=
  if c.isDigit then .ok { st with temp := st.temp ++ [c] }
  else if c = '.' then
    if st.temp.contains '.' then .error .DuplicateDecimal
    else .ok { st with temp := st.temp ++ [c] }
  else
    match flushTemp st with
    | .error e => .error e
    | .ok st' =>
      if c = '(' then
        .ok { st' with holding := Token.OpenParen :: st'.holding,
                       last_token := some Token.OpenParen }
      else if c = ')' then
        match popToParen st'.holding st'.output with
        | .error e => .error e
        | .ok (h, out) =>
          .ok { st' with holding := h, output := out,
                         last_token := some Token.OpenParen }
      else if ¬ c.isWhitespace then
        match Operator.by_char c with
        | some op0 =>
          let op := unaryOverride op0 st'.last_token
          let (h, out) := popOpsGE op.precedence st'.holding st'.output
          .ok { st' with holding := Token.Operator op :: h, output := out,
                         last_token := some (Token.Operator op) }
        | none => .error .InvalidCharacter
      else .ok st'

/-- Left-to-right scan of the whole character sequence. -/
def scanChars : ScanState → List Char → Except EvalError ScanState
  | st, [] => .ok st
  | st, c :: cs =>
    match scanStep st c with
    | .error e => .error e
    | .ok st' => scanChars st' cs

/-- main.rs lines 144-157: flush any remaining pending digits, then drain
the entire holding stack into the output queue in pop order.  (The final
Rust flush does not update last_token, but last_token is dead after the
scan, so reusing flushTemp is observationally identical.) -/
def finishScan (st : ScanState) : Except EvalError (List Token) :=
  match flushTemp st with
  | .error e => .error e
  | .ok st' => .ok (st'.output ++ st'.holding)

/-- main.rs lines 176-205: one step of the RPN reduction over the operand
stack (a VecDeque used at the front, head = most recently pushed).  The
impossible empty-stack pop in the unary minus branch (the length check has
already ensured one operand) is mapped to the same NotEnoughArguments error
rather than a Rust abort. -/
def solveStep (stack : List ℚ) (t : Token) : Except EvalError (List ℚ) :=
  match t with
  | Token.NumericLiteral v => .ok (v :: stack)
  | Token.Operator op =>
    if stack.length < op.argc then .error .NotEnoughArguments
    else if op.symbol = '+' ∧ op.argc = 1 then .ok stack
    else if op.symbol = '-' ∧ op.argc = 1 then
      match stack with
      | v :: rest => .ok (-v :: rest)
      | [] => .error .NotEnoughArguments
    else
      let args := stack.take op.argc
      if args.length < op.argc then .error .NotEnoughArguments
      else .ok (op.resolve args :: stack.drop op.argc)
  | Token.OpenParen => .error (.UnexpectedToken t)

/-- main.rs lines 174-206: the RPN reduction loop over the output queue. -/
def solveAll : List ℚ → List Token → Except EvalError (List ℚ)
  | stack, [] => .ok stack
  | stack, t :: ts =>
    match solveStep stack t with
    | .error e => .error e
    | .ok stack' => solveAll stack' ts

/-- main.rs lines 208-212: the front of a nonempty operand stack is the
result; an empty stack is NoResult. -/
def finishSolve (stack : List ℚ) : Except EvalError ℚ :=
  match stack with
  | v :: _ => .ok v
  | [] => .error .NoResult

/-- main.rs lines 71-213: `eval`, the full pipeline.  (The token debug
printing at lines 159-172 has no effect on the returned value and is not
modelled.) -/
def eval (expression : String) : Except EvalError ℚ :=
  match scanChars { holding := [], output := [], temp := [], last_token := none }
      expression.data with
  | .error e => .error e
  | .ok st =>
    match finishScan st with
    | .error e => .error e
    | .ok toks =>
      match solveAll [] toks with
      | .error e => .error e
      | .ok stack => finishSolve stack

end SYC

namespace SYC

/- ### Shared helper lemmas -/

/-- The value the scanner builds for a plain integer numeral: the shape
produced by parseNum on a digits-only buffer (integer part n, empty
fractional part). -/
def litQ (n : Nat) : ℚ := (n : ℚ) + ((0 : Nat) : ℚ) / 10 ^ (0 : Nat)

theorem litQ_eq (n : Nat) : litQ n = (n : ℚ) := by
  simp [litQ]

/-- If the holding stack contains no OpenParen, the close-paren loop of
main.rs lines 99-107 drains it completely and fails with
MismatchedParenthesis. -/
theorem popToParen_no_paren : ∀ (holding out : List Token),
    Token.OpenParen ∉ holding →
    popToParen holding out = Except.error EvalError.MismatchedParenthesis
  | [], _, _ => rfl
  | Token.OpenParen :: _, _, h => absurd (List.mem_cons_self _ _) h
  | Token.NumericLiteral v :: rest, out, h =>
    popToParen_no_paren rest (out ++ [Token.NumericLiteral v])
      (fun hm => h (List.mem_cons_of_mem _ hm))
  | Token.Operator op :: rest, out, h =>
    popToParen_no_paren rest (out ++ [Token.Operator op])
      (fun hm => h (List.mem_cons_of_mem _ hm))

/-- With an OpenParen present, the close-paren loop pops everything before
the first OpenParen into the output queue, then pops and discards the
OpenParen itself. -/
theorem popToParen_found : ∀ (pre post out : List Token),
    Token.OpenParen ∉ pre →
    popToParen (pre ++ Token.OpenParen :: post) out = Except.ok (post, out ++ pre)
  | [], _, _, _ => by simp [popToParen]
  | Token.OpenParen :: _, _, _, h => absurd (List.mem_cons_self _ _) h
  | Token.NumericLiteral v :: rest, post, out, h => by
    have ih := popToParen_found rest post (out ++ [Token.NumericLiteral v])
      (fun hm => h (List.mem_cons_of_mem _ hm))
    simpa using ih
  | Token.Operator op :: rest, post, out, h => by
    have ih := popToParen_found rest post (out ++ [Token.Operator op])
      (fun hm => h (List.mem_cons_of_mem _ hm))
    simpa using ih

/- ### Claim theorems -/

/-- Claim C1.  The claim is wrong about the code: MAP is laid out in the
source order / * + - whose code points 47, 42, 43, 45 are NOT sorted, so
the binary search of by_char never probes index 0 and misses the division
operator entirely: by_char of / is none (hence InvalidCharacter downstream),
while * + - are found with the stated arity and precedence. -/
theorem C1_by_char_misses_div :
    Operator.by_char '/' = none ∧
    (Operator.by_char '*').map (fun op => (op.symbol, op.argc, op.precedence)) =
      some ('*', 2, 3) ∧
    (Operator.by_char '+').map (fun op => (op.symbol, op.argc, op.precedence)) =
      some ('+', 2, 2) ∧
    (Operator.by_char '-').map (fun op => (op.symbol, op.argc, op.precedence)) =
      some ('-', 2, 1) :=
  ⟨rfl, rfl, rfl, rfl⟩

/-- Claim C2.  The universal statement fails on the code: the plus and minus
rows of MAP carry unequal precedences 2 and 1, so "1 - 2 + 3" converts to
1 2 3 + - and evaluates to -4 instead of the standard 2; and any expression
containing / dies with InvalidCharacter because by_char misses the division
row.  The four examples cited by the claim do evaluate as stated. -/
theorem C2_not_standard_arithmetic :
    eval "1 - 2 + 3" = Except.ok (-4) ∧
    eval "1 / 2" = Except.error EvalError.InvalidCharacter ∧
    eval "3 + 4 * 2" = Except.ok 11 ∧
    eval "(3 + 4) * 2" = Except.ok 14 ∧
    eval "-3 + 4" = Except.ok 1 ∧
    eval "2 - -3" = Except.ok 5 := by
  refine ⟨?_, rfl, ?_, ?_, ?_, ?_⟩
  · rw [show eval "1 - 2 + 3" = Except.ok (litQ 1 - (litQ 2 + litQ 3)) from rfl,
      Except.ok.injEq]
    norm_num [litQ_eq]
  · rw [show eval "3 + 4 * 2" = Except.ok (litQ 3 + litQ 4 * litQ 2) from rfl,
      Except.ok.injEq]
    norm_num [litQ_eq]
  · rw [show eval "(3 + 4) * 2" = Except.ok ((litQ 3 + litQ 4) * litQ 2) from rfl,
      Except.ok.injEq]
    norm_num [litQ_eq]
  · rw [show eval "-3 + 4" = Except.ok (-litQ 3 + litQ 4) from rfl,
      Except.ok.injEq]
    norm_num [litQ_eq]
  · rw [show eval "2 - -3" = Except.ok (litQ 2 - -litQ 3) from rfl,
      Except.ok.injEq]
    norm_num [litQ_eq]

/-- Claim C3.  The claim is wrong about the code: "1 / 0" never reaches a
division, because by_char fails to find / in the unsorted MAP, so eval
returns InvalidCharacter rather than Ok of positive infinity. -/
theorem C3_division_by_zero_unreachable :
    eval "1 / 0" = Except.error EvalError.InvalidCharacter :=
  rfl

/-- Claim C4, counterexample: the claimed result DuplicateDecimal is not
what the code produces for the spaced input. -/
theorem C4_counterexample :
    (eval "3 . 5 . 2" = Except.error EvalError.DuplicateDecimal) = False := by
  have h : eval "3 . 5 . 2" = Except.error EvalError.NumberParseError := rfl
  rw [h]
  simp

/-- Claim C4 as amended: the whitespace in "3 . 5 . 2" flushes the pending
buffer, so the isolated dot fails float parsing with NumberParseError; a
numeral with two dots written contiguously, "3.5.2", fails with
DuplicateDecimal. -/
theorem C4_spaced_decimal_parse_error :
    eval "3 . 5 . 2" = Except.error EvalError.NumberParseError ∧
    eval "3.5.2" = Except.error EvalError.DuplicateDecimal :=
  ⟨rfl, rfl⟩

/-- Claim C5, counterexample: the claimed Ok(-3) is not what the code
produces for "(-3)". -/
theorem C5_counterexample :
    (eval "(-3)" = Except.ok (-3 : ℚ)) = False := by
  have h : eval "(-3)" = Except.error EvalError.NotEnoughArguments := rfl
  rw [h]
  simp

/-- Claim C5 as amended: a + or - is made unary (argc 1, precedence 255)
exactly when the last observed token is an operator or absent; immediately
after an open parenthesis the last token is OpenParen, so the operator
stays binary, and "(-3)" fails with NotEnoughArguments while "-3" at the
start of the expression evaluates to -3. -/
theorem C5_unary_detection :
    (∀ op : Operator, op.symbol = '+' ∨ op.symbol = '-' →
      unaryOverride op none = { op with argc := 1, precedence := 255 } ∧
      (∀ op2 : Operator, unaryOverride op (some (Token.Operator op2)) =
        { op with argc := 1, precedence := 255 }) ∧
      unaryOverride op (some Token.OpenParen) = op) ∧
    eval "(-3)" = Except.error EvalError.NotEnoughArguments ∧
    eval "-3" = Except.ok (-3) := by
  refine ⟨?_, rfl, ?_⟩
  · intro op hs
    rcases hs with h | h <;>
      exact ⟨by simp [unaryOverride, h], fun op2 => by simp [unaryOverride, h],
        by simp [unaryOverride, h]⟩
  · rw [show eval "-3" = Except.ok (-litQ 3) from rfl, Except.ok.injEq]
    norm_num [litQ_eq]

theorem C5_witness :
    unaryOverride (Operator.MAP.getD 3 default).2 none =
      { (Operator.MAP.getD 3 default).2 with argc := 1, precedence := 255 } :=
  (C5_unary_detection.1 _ (Or.inr rfl)).1

/-- Claim C7, counterexample: for the never-closed input "(+", evaluation
does not fail with UnexpectedToken on the dangling OpenParen; it fails
earlier, with NotEnoughArguments on the binary plus. -/
theorem C7_counterexample :
    (eval "(+" = Except.error (EvalError.UnexpectedToken Token.OpenParen)) = False := by
  have h : eval "(+" = Except.error EvalError.NotEnoughArguments := rfl
  rw [h]
  simp

/-- Claim C7 as amended: the end-of-scan drain never rejects a dangling
OpenParen: whenever the final buffer flush succeeds, finishScan succeeds and
appends the whole holding stack (OpenParen included) to the output queue;
when evaluation then reaches such an OpenParen it fails with
UnexpectedToken, as on "(1", but it can fail earlier with a different
error, as on "(+". -/
theorem C7_dangling_paren_drained :
    (∀ st st', flushTemp st = Except.ok st' →
      finishScan st = Except.ok (st'.output ++ st'.holding)) ∧
    eval "(1" = Except.error (EvalError.UnexpectedToken Token.OpenParen) ∧
    eval "(+" = Except.error EvalError.NotEnoughArguments := by
  refine ⟨?_, rfl, rfl⟩
  intro st st' h
  simp [finishScan, h]

theorem C7_witness :
    finishScan { holding := [], output := [], temp := [], last_token := none } =
      Except.ok [] :=
  C7_dangling_paren_drained.1
    { holding := [], output := [], temp := [], last_token := none }
    { holding := [], output := [], temp := [], last_token := none } rfl

/-- Claim C8: a close paren scanned with no OpenParen on the holding stack
fails with MismatchedParenthesis (in particular on the input ")"), and with
an OpenParen present everything above it is popped to the output queue and
the OpenParen itself is popped and discarded. -/
theorem C8_close_paren :
    (∀ holding out, Token.OpenParen ∉ holding →
      popToParen holding out = Except.error EvalError.MismatchedParenthesis) ∧
    (∀ pre post out, Token.OpenParen ∉ pre →
      popToParen (pre ++ Token.OpenParen :: post) out = Except.ok (post, out ++ pre)) ∧
    eval ")" = Except.error EvalError.MismatchedParenthesis :=
  ⟨popToParen_no_paren, popToParen_found, rfl⟩

theorem C8_witness :
    popToParen [] [] = Except.error EvalError.MismatchedParenthesis ∧
    popToParen [Token.OpenParen] [] = Except.ok ([], []) :=
  ⟨C8_close_paren.1 [] [] (by simp), C8_close_paren.2.1 [] [] [] (by simp)⟩

/-- Claim C9: "+" alone is made unary but still needs one operand, failing
with NotEnoughArguments; in general an operator token reaching the RPN
reduction with fewer operands than its argc fails with NotEnoughArguments. -/
theorem C9_not_enough_arguments :
    eval "+" = Except.error EvalError.NotEnoughArguments ∧
    (∀ (stack : List ℚ) (op : Operator) (ts : List Token),
      stack.length < op.argc →
      solveAll stack (Token.Operator op :: ts) =
        Except.error EvalError.NotEnoughArguments) := by
  refine ⟨rfl, ?_⟩
  intro stack op ts h
  simp [solveAll, solveStep, h]

theorem C9_witness :
    solveAll [] [Token.Operator (Operator.MAP.getD 2 default).2] =
      Except.error EvalError.NotEnoughArguments :=
  C9_not_enough_arguments.2 [] _ [] (by decide)

/-- Claim C10: when the output queue is exhausted with more than one value
left on the operand stack, eval reports no error: it returns the most
recently pushed value and discards the rest, so "3 4" yields Ok 4. -/
theorem C10_extra_operands_discarded :
    eval "3 4" = Except.ok 4 ∧
    (∀ (v : ℚ) (rest : List ℚ), finishSolve (v :: rest) = Except.ok v) := by
  constructor
  · rw [show eval "3 4" = Except.ok (litQ 4) from rfl, Except.ok.injEq]
    norm_num [litQ_eq]
  · intro v rest
    rfl

/-- Claim C6: binary reduction takes the most recently pushed operand as
the right argument and the second-popped operand as the left argument, for
the division and subtraction rows of MAP, both at the resolve level and
through the RPN loop on the postfix sequence a b OP. -/
theorem C6_operand_order (a b : ℚ) :
    (Operator.MAP.getD 0 default).2.resolve [b, a] = a / b ∧
    (Operator.MAP.getD 3 default).2.resolve [b, a] = a - b ∧
    solveAll [] [Token.NumericLiteral a, Token.NumericLiteral b,
      Token.Operator (Operator.MAP.getD 0 default).2] = Except.ok [a / b] ∧
    solveAll [] [Token.NumericLiteral a, Token.NumericLiteral b,
      Token.Operator (Operator.MAP.getD 3 default).2] = Except.ok [a - b] :=
  ⟨rfl, rfl, rfl, rfl⟩

end SYC
